import Mathlib

/-!
Verification development for the FileConverter audio-analysis scripts
(`Scripts/essentia_analyzer.py` and `Scripts/essentia_service.py`).

The two Python files share one analysis routine: check that the input file
exists, decode it through the external Essentia engine, run the rhythm
extractor, and post-process the raw engine output into a JSON-shaped
result.  The engine itself (decode + rhythm extraction) is opaque and is
modelled as a record of functions; a Python exception raised by an engine
call is modelled as an `Except.error` carrying the exception message.

Python float arithmetic on the values reached here is modelled exactly:
the quantities are real numbers extended with the three IEEE-754 special
values `nan`, `inf` and `-inf` (`PyVal`), which are exactly the values the
expression `1.0 - np.std(xs)/np.mean(xs)` can produce from real inputs.
CPython's two-argument `min`/`max` keep their first argument unless the
second compares strictly smaller/greater, and every comparison against
`nan` is false; `PyVal.lt`, `pyMin` and `pyMax` reproduce that.
-/

/-- A Python float value as produced by the regularity expression:
either an actual real number or one of the IEEE special values. -/
inductive PyVal where
  | nan
  | inf
  | ninf
  | val (x : ℝ)

/-- IEEE-754 `<` on `PyVal`: any comparison involving `nan` is false,
`-inf` is below everything else, `inf` above everything else. -/
def PyVal.lt : PyVal → PyVal → Prop
  | .nan, _ => False
  | .inf, _ => False
  | .ninf, .nan => False
  | .ninf, .ninf => False
  | .ninf, .inf => True
  | .ninf, .val _ => True
  | .val _, .nan => False
  | .val _, .inf => True
  | .val _, .ninf => False
  | .val a, .val b => a < b

open Classical in
/-- CPython `min(a, b)`: keep `a`, replace by `b` only when `b < a`. -/
noncomputable def pyMin (a b : PyVal) : PyVal := if PyVal.lt b a then b else a

open Classical in
/-- CPython `max(a, b)`: keep `a`, replace by `b` only when `a < b`. -/
noncomputable def pyMax (a b : PyVal) : PyVal := if PyVal.lt a b then b else a

open Classical in
/-- IEEE division of two real-valued floats (`np.std(..)/np.mean(..)`):
`0/0` is `nan`, `x/0` for `x ≠ 0` is a signed infinity, otherwise exact. -/
noncomputable def pyDiv (a b : ℝ) : PyVal :=
  if b = 0 then (if a = 0 then .nan else if 0 < a then .inf else .ninf) else .val (a / b)

/-- IEEE `1.0 - x` applied to the quotient. -/
noncomputable def pyOneSub : PyVal → PyVal
  | .nan => .nan
  | .inf => .ninf
  | .ninf => .inf
  | .val x => .val (1 - x)

/-- `np.mean` of a list of floats (sum divided by length). -/
noncomputable def npMean (l : List ℝ) : ℝ := l.sum / l.length

/-- `np.std` of a list of floats: the *population* standard deviation
(`ddof = 0`), i.e. the square root of the mean of squared deviations. -/
noncomputable def npStd (l : List ℝ) : ℝ :=
  Real.sqrt ((l.map (fun x => (x - npMean l) ^ 2)).sum / l.length)

/-- The rhythm-regularity computation of `analyze_audio`
(`essentia_analyzer.py` lines 48–52, identical in `essentia_service.py`
lines 128–132):

    if len(beats_intervals) > 1:
        rhythm_regularity = float(1.0 - np.std(beats_intervals) / np.mean(beats_intervals))
        rhythm_regularity = max(0.0, min(1.0, rhythm_regularity))
    else:
        rhythm_regularity = 0.0
-/
noncomputable def computeRegularity (intervals : List ℝ) : PyVal :=
  if 1 < intervals.length then
    pyMax (.val 0) (pyMin (.val 1) (pyOneSub (pyDiv (npStd intervals) (npMean intervals))))
  else
    .val 0

/-- The predicate "this Python float is an actual number lying in
the closed interval `[0.0, 1.0]`". -/
def PyVal.inUnitInterval : PyVal → Prop
  | .val x => 0 ≤ x ∧ x ≤ 1
  | _ => False

theorem npStd_nonneg (l : List ℝ) : 0 ≤ npStd l := Real.sqrt_nonneg _

theorem pyMin_val (a b : ℝ) : pyMin (.val a) (.val b) = .val (min a b) := by
  unfold pyMin
  simp only [PyVal.lt]
  split
  · next h => rw [min_eq_right (le_of_lt h)]
  · next h => rw [min_eq_left (le_of_not_lt h)]

theorem pyMax_val (a b : ℝ) : pyMax (.val a) (.val b) = .val (max a b) := by
  unfold pyMax
  simp only [PyVal.lt]
  split
  · next h => rw [max_eq_right (le_of_lt h)]
  · next h => rw [max_eq_left (le_of_not_lt h)]

theorem pyMin_one_nan : pyMin (.val 1) .nan = .val 1 := by
  unfold pyMin
  simp [PyVal.lt]

theorem pyMax_zero_one : pyMax (.val 0) (.val 1) = .val 1 := by
  unfold pyMax
  simp only [PyVal.lt]
  rw [if_pos (by norm_num : (0:ℝ) < 1)]

theorem pyMin_one_ninf : pyMin (.val 1) .ninf = .ninf := by
  unfold pyMin
  simp [PyVal.lt]

theorem pyMax_zero_ninf : pyMax (.val 0) .ninf = .val 0 := by
  unfold pyMax
  simp [PyVal.lt]

/-- The clamp `max(0.0, min(1.0, x))` sends every actual real number into
the unit interval. -/
theorem clamp_val_inUnit (y : ℝ) :
    (pyMax (.val 0) (pyMin (.val 1) (.val y))).inUnitInterval := by
  rw [pyMin_val, pyMax_val]
  constructor
  · exact le_max_left _ _
  · exact max_le (by norm_num) (min_le_left _ _)

/-- Whatever the interval list, the regularity computation lands on an
actual real number in `[0, 1]`. -/
theorem computeRegularity_inUnit (intervals : List ℝ) :
    (computeRegularity intervals).inUnitInterval := by
  unfold computeRegularity
  split
  · by_cases hm : npMean intervals = 0
    · by_cases hs : npStd intervals = 0
      · rw [pyDiv, if_pos hm, if_pos hs]
        simp only [pyOneSub]
        rw [pyMin_one_nan, pyMax_zero_one]
        exact ⟨by norm_num, le_refl 1⟩
      · have hpos : 0 < npStd intervals := lt_of_le_of_ne (npStd_nonneg _) (Ne.symm hs)
        rw [pyDiv, if_pos hm, if_neg hs, if_pos hpos]
        simp only [pyOneSub]
        rw [pyMin_one_ninf, pyMax_zero_ninf]
        exact ⟨le_refl 0, by norm_num⟩
    · rw [pyDiv, if_neg hm]
      simp only [pyOneSub]
      exact clamp_val_inUnit _
  · exact ⟨le_refl 0, by norm_num⟩

/-!
### The opaque Essentia engine and the analysis routine

`RhythmExtractor2013` returns the 5-tuple
`bpm, beats, beats_confidence, estimates, beats_intervals`; the scripts
ignore the fourth component.  `Engine.load` models
`MonoLoader(filename=path)()` and `Engine.extract` the extractor call;
an `Except.error msg` models the call raising a Python exception with
message `msg`.  `Engine.probe` models constructing `MonoLoader()` and
`RhythmExtractor2013()` without arguments (the self-test).
-/

/-- Raw output of `RhythmExtractor2013(method="multifeature")(audio)`. -/
structure ExtractOut where
  bpm : ℝ
  beats : List ℝ
  beats_confidence : ℝ
  estimates : List ℝ
  beats_intervals : List ℝ

/-- The opaque external analysis engine together with the filesystem
(`os.path.exists`), as seen by one invocation of the analysis routine. -/
structure Engine where
  fileExists : String → Bool
  load : String → Except String (List ℝ)
  extract : List ℝ → Except String ExtractOut
  probe : Except String Unit

/-- The normalized analysis result assembled by `analyze_audio`
(the `result = { ... }` dict literal). -/
structure AnalysisResult where
  tempo_bpm : ℝ
  confidence : ℝ
  beat_timestamps_sec : List ℝ
  bpm_intervals : List ℝ
  beats_detected : ℕ
  rhythm_regularity : PyVal

/-- A JSON document as printed by the CLI or sent by the HTTP service:
`{"audio_analysis": {...}}`, `{"error": msg}`,
`{"status": "ok", "message": msg}` (CLI self-test), or the `/health`
payload `{"status": .., "essentia_available": .., "message": ..}`. -/
inductive JsonDoc where
  | analysisDoc (r : AnalysisResult)
  | errorDoc (msg : String)
  | testOkDoc (status message : String)
  | healthDoc (status : String) (essentia_available : Bool) (message : String)

/-- Serialization of the `result` dict literal of `analyze_audio`:
the dict's keys in source order, with their values. -/
inductive JVal where
  | jfloat (x : ℝ)
  | jintlist (xs : List ℝ)
  | jcount (n : ℕ)
  | jreg (v : PyVal)

/-- The `result = { ... }` dict literal of `analyze_audio`
(`essentia_analyzer.py` lines 54–61, identical in the service):
key/value pairs in source order.  Note the fourth key is the string
`"bpm_intervals"`. -/
def AnalysisResult.toDict (r : AnalysisResult) : List (String × JVal) :=
  [("tempo_bpm", .jfloat r.tempo_bpm),
   ("confidence", .jfloat r.confidence),
   ("beat_timestamps_sec", .jintlist r.beat_timestamps_sec),
   ("bpm_intervals", .jintlist r.bpm_intervals),
   ("beats_detected", .jcount r.beats_detected),
   ("rhythm_regularity", .jreg r.rhythm_regularity)]

/-- Assembly of the `result` dict from the raw extractor output:
`beat_timestamps_sec = [float(b) for b in beats]` (identity here),
`bpm_intervals = [float(i) for i in beats_intervals]`,
`beats_detected = len(beats)`. -/
noncomputable def buildResult (out : ExtractOut) : AnalysisResult :=
  { tempo_bpm := out.bpm,
    confidence := out.beats_confidence,
    beat_timestamps_sec := out.beats,
    bpm_intervals := out.beats_intervals,
    beats_detected := out.beats.length,
    rhythm_regularity := computeRegularity out.beats_intervals }

/-- The body of the `try:` block of `analyze_audio`
(`essentia_analyzer.py` lines 29–63).  A `return` inside the `try` is an
`Except.ok`; an uncaught engine exception is an `Except.error`. -/
noncomputable def analyze_audio_attempt (eng : Engine) (audio_path : String) :
    Except String JsonDoc :=
  if eng.fileExists audio_path = false then
    .ok (.errorDoc ("Аудио файл не найден: " ++ audio_path))
  else
    match eng.load audio_path with
    | .error e => .error e
    | .ok audio =>
      if audio.length = 0 then
        .ok (.errorDoc "Аудио файл пуст или поврежден")
      else
        match eng.extract audio with
        | .error e => .error e
        | .ok out => .ok (.analysisDoc (buildResult out))

/-- `analyze_audio` of `essentia_analyzer.py` (lines 19–66): the `try`
body, with the `except Exception as e:` handler turning any escaped
exception into `{"error": f"Ошибка анализа аудио: {e}"}`. -/
noncomputable def analyze_audio (eng : Engine) (audio_path : String) : JsonDoc :=
  match analyze_audio_attempt eng audio_path with
  | .ok doc => doc
  | .error e => .errorDoc ("Ошибка анализа аудио: " ++ e)

/-- `EssentiaHandler.analyze_audio` of `essentia_service.py`
(lines 96–148): an `ESSENTIA_AVAILABLE` guard followed by a body that is
line-for-line the body of `analyze_audio` in `essentia_analyzer.py`
(the service variant only adds server-side logging of the traceback). -/
noncomputable def handler_analyze_audio (essentia_available : Bool) (eng : Engine)
    (audio_path : String) : JsonDoc :=
  if essentia_available = false then
    .errorDoc "Essentia не установлена"
  else
    analyze_audio eng audio_path

/-- Inversion: a successful `analyze_audio` run means the file existed,
the loader returned a non-empty buffer, the extractor succeeded, and the
result is the assembly of the extractor's output. -/
theorem analyze_audio_success_inv (eng : Engine) (p : String) (r : AnalysisResult)
    (h : analyze_audio eng p = .analysisDoc r) :
    ∃ audio out, eng.load p = .ok audio ∧ eng.extract audio = .ok out ∧
      r = buildResult out := by
  unfold analyze_audio at h
  split at h
  · next doc heq =>
    subst h
    unfold analyze_audio_attempt at heq
    split at heq
    · simp at heq
    · split at heq
      · next e he => simp at heq
      · next audio ha =>
        split at heq
        · simp at heq
        · split at heq
          · next e he => simp at heq
          · next out ho =>
            simp only [Except.ok.injEq, JsonDoc.analysisDoc.injEq] at heq
            exact ⟨audio, out, ha, ho, heq.symm⟩
  · next e heq => simp at h

/-!
### The HTTP service layer (`essentia_service.py`)

A request handler thread is modelled by pure functions from the parsed
request to the one `HttpResponse` it sends.  `do_GET` receives the path
component of the URL and the value `parse_qs(query).get('file', [None])[0]`
(an absent or blank parameter is `none` / `some ""`, matching Python
truthiness in `if not audio_path`).  `do_POST` receives the outcome of
`json.loads` on the body: `malformed` when it raises `JSONDecodeError`,
otherwise `parsed data.get('file_path')`.
-/

/-- One HTTP response: status code, headers in the order sent, JSON body. -/
structure HttpResponse where
  status_code : ℕ
  headers : List (String × String)
  body : JsonDoc

/-- `EssentiaHandler.send_json_response` (lines 150–158): the status code,
the two headers it always sends, and the serialized payload. -/
def send_json_response (data : JsonDoc) (status_code : ℕ) : HttpResponse :=
  { status_code := status_code,
    headers := [("Content-type", "application/json"),
                ("Access-Control-Allow-Origin", "*")],
    body := data }

/-- `EssentiaHandler.send_error_response` (lines 160–163). -/
def send_error_response (status_code : ℕ) (message : String) : HttpResponse :=
  send_json_response (.errorDoc message) status_code

/-- `EssentiaHandler.send_health_check` (lines 75–94). -/
def send_health_check (essentia_available : Bool) (eng : Engine) : HttpResponse :=
  if essentia_available = false then
    send_error_response 503 "Essentia недоступна"
  else
    match eng.probe with
    | .ok _ => send_json_response
        (.healthDoc "healthy" true "Сервис Essentia работает корректно") 200
    | .error e => send_error_response 503 ("Essentia недоступна: " ++ e)

/-- `EssentiaHandler.do_GET` (lines 24–46), after `urlparse`/`parse_qs`. -/
noncomputable def do_GET (essentia_available : Bool) (eng : Engine)
    (path : String) (queryFile : Option String) : HttpResponse :=
  if path = "/health" then
    send_health_check essentia_available eng
  else if path = "/analyze" then
    match queryFile with
    | none => send_error_response 400 "Параметр \x27file\x27 обязателен"
    | some f =>
      if f = "" then
        send_error_response 400 "Параметр \x27file\x27 обязателен"
      else
        send_json_response (handler_analyze_audio essentia_available eng f) 200
  else
    send_error_response 404 "Эндпоинт не найден"

/-- Outcome of `json.loads(post_data)` followed by `data.get('file_path')`:
`malformed` when `json.loads` raises `JSONDecodeError`, otherwise the
(possibly absent) `file_path` field. -/
inductive PostBody where
  | malformed
  | parsed (file_path : Option String)

/-- `EssentiaHandler.do_POST` (lines 48–73), after body decoding. -/
noncomputable def do_POST (essentia_available : Bool) (eng : Engine)
    (path : String) (body : PostBody) : HttpResponse :=
  if path = "/analyze" then
    match body with
    | .malformed => send_error_response 400 "Неверный JSON формат"
    | .parsed none => send_error_response 400 "Поле \x27file_path\x27 обязательно"
    | .parsed (some fp) =>
      if fp = "" then
        send_error_response 400 "Поле \x27file_path\x27 обязательно"
      else
        send_json_response (handler_analyze_audio essentia_available eng fp) 200
  else
    send_error_response 404 "Эндпоинт не найден"

/-!
### The CLI layer (`essentia_analyzer.py` lines 68–98)
-/

/-- What one CLI process run produces: the JSON document printed to
stdout and the process exit status. -/
structure CliResult where
  printed : JsonDoc
  exitCode : ℕ

/-- `test_essentia` (lines 68–80): construct the loader and the extractor,
report ok or the exception message. -/
def test_essentia (eng : Engine) : JsonDoc :=
  match eng.probe with
  | .ok _ => .testOkDoc "ok" "Essentia доступна"
  | .error e => .errorDoc ("Essentia недоступна: " ++ e)

/-- `main` (lines 82–95): `len(sys.argv) < 2` prints the usage error and
exits 1; `sys.argv[1] == "--test"` runs the self-test; otherwise the
argument is analyzed; both latter paths print and fall off the end of the
script (exit status 0). -/
noncomputable def main (eng : Engine) (argv : List String) : CliResult :=
  match argv with
  | _ :: arg1 :: _ =>
    if arg1 = "--test" then
      { printed := test_essentia eng, exitCode := 0 }
    else
      { printed := analyze_audio eng arg1, exitCode := 0 }
  | _ =>
    { printed := .errorDoc
        "Использование: python3 essentia_analyzer.py <audio_file_path> или --test",
      exitCode := 1 }

/-- The whole CLI process (`essentia_analyzer.py`): the module-level
`import essentia` guard at lines 12–17 prints
`{"error": "Essentia не установлена"}` and exits 1 when the import fails,
before `main` ever inspects the arguments; otherwise `main` runs. -/
noncomputable def cli_process (essentiaImportOk : Bool) (eng : Engine)
    (argv : List String) : CliResult :=
  if essentiaImportOk = false then
    { printed := .errorDoc "Essentia не установлена", exitCode := 1 }
  else
    main eng argv

/-!
### Concrete engine instances used to instantiate the theorems
-/

/-- A concrete extractor output: two beats half a second apart, one
inter-beat interval. -/
noncomputable def sampleOut : ExtractOut :=
  { bpm := 120,
    beats := [0, 0.5],
    beats_confidence := 1,
    estimates := [],
    beats_intervals := [0.5] }

/-- A concrete engine for which every path exists and analysis succeeds
with `sampleOut`. -/
noncomputable def sampleEngine : Engine :=
  { fileExists := fun _ => true,
    load := fun _ => .ok [0.1],
    extract := fun _ => .ok sampleOut,
    probe := .ok () }

/-- The analysis result `sampleEngine` produces. -/
noncomputable def sampleResult : AnalysisResult :=
  { tempo_bpm := 120,
    confidence := 1,
    beat_timestamps_sec := [0, 0.5],
    bpm_intervals := [0.5],
    beats_detected := 2,
    rhythm_regularity := .val 0 }

theorem sampleEngine_analysis :
    analyze_audio sampleEngine "a.wav" = .analysisDoc sampleResult := rfl

/-- A concrete engine whose filesystem contains no file at all. -/
noncomputable def absentEngine : Engine :=
  { fileExists := fun _ => false,
    load := fun _ => .error "no file",
    extract := fun _ => .error "no file",
    probe := .ok () }

/-!
### Shape of the analysis routine's output
-/

/-- Every `Except.ok` value of the `try` body is one of the two

record shapes `{"audio_analysis": ...}` / `{"error": ...}`. -/
theorem attempt_ok_shape (eng : Engine) (p : String) (doc : JsonDoc)
    (h : analyze_audio_attempt eng p = .ok doc) :
    (∃ r, doc = .analysisDoc r) ∨ (∃ m, doc = .errorDoc m) := by
  unfold analyze_audio_attempt at h
  split at h
  · exact Or.inr ⟨_, ((Except.ok.inj h).symm)⟩
  · split at h
    · next e he => simp at h
    · next audio ha =>
      split at h
      · exact Or.inr ⟨_, ((Except.ok.inj h).symm)⟩
      · split at h
        · next e he => simp at h
        · next out ho => exact Or.inl ⟨_, ((Except.ok.inj h).symm)⟩

/-- `analyze_audio` always returns one of the two record shapes. -/
theorem analyze_audio_shape (eng : Engine) (p : String) :
    (∃ r, analyze_audio eng p = .analysisDoc r) ∨
    (∃ m, analyze_audio eng p = .errorDoc m) := by
  unfold analyze_audio
  split
  · next doc heq =>
    rcases attempt_ok_shape eng p doc heq with ⟨r, hr⟩ | ⟨m, hm⟩
    · exact Or.inl ⟨r, hr⟩
    · exact Or.inr ⟨m, hm⟩
  · next e heq => exact Or.inr ⟨_, rfl⟩

/-- `EssentiaHandler.analyze_audio` always returns one of the two record
shapes. -/
theorem handler_analyze_audio_shape (avail : Bool) (eng : Engine) (p : String) :
    (∃ r, handler_analyze_audio avail eng p = .analysisDoc r) ∨
    (∃ m, handler_analyze_audio avail eng p = .errorDoc m) := by
  unfold handler_analyze_audio
  split
  · exact Or.inr ⟨_, rfl⟩
  · exact analyze_audio_shape eng p

/-!
### Claim theorems
-/

/-- C1: for every intervals sequence passed through the analysis core —
including all-equal, single-element, empty and all-zero sequences, which
arise from some engine behaviour quantified over here — the
`rhythm_regularity` field of a produced `AnalysisResult` (from the CLI
routine or the service routine) is an actual number in `[0.0, 1.0]`. -/
theorem rhythm_regularity_in_unit_interval (avail : Bool) (eng : Engine)
    (p : String) (r : AnalysisResult)
    (h : analyze_audio eng p = .analysisDoc r ∨
         handler_analyze_audio avail eng p = .analysisDoc r) :
    r.rhythm_regularity.inUnitInterval := by
  have hA : analyze_audio eng p = .analysisDoc r := by
    rcases h with h | h
    · exact h
    · unfold handler_analyze_audio at h
      split at h
      · simp at h
      · exact h
  obtain ⟨audio, out, _, _, hr⟩ := analyze_audio_success_inv eng p r hA
  rw [hr]
  exact computeRegularity_inUnit out.beats_intervals

/-- Witness for C1 at a concrete engine run. -/
theorem rhythm_regularity_in_unit_interval_witness :
    sampleResult.rhythm_regularity.inUnitInterval :=
  rhythm_regularity_in_unit_interval true sampleEngine "a.wav" sampleResult
    (Or.inl rfl)

/-- C2: with fewer than 2 intervals the regularity is `0.0`; with 2 or
more intervals it is `1.0 - (population_stddev/mean)` clamped into
`[0.0, 1.0]` (stated with the exact real clamp when the mean is nonzero,
and as membership in `[0.0, 1.0]` in general, covering the `mean = 0`
cases, where the quotient is `nan` or `inf`); for
`intervals = [2.0, 2.0, 2.0]` the result is exactly `1.0`. -/
theorem regularity_formula :
    (∀ intervals : List ℝ, intervals.length < 2 →
      computeRegularity intervals = .val 0) ∧
    (∀ intervals : List ℝ, 2 ≤ intervals.length → npMean intervals ≠ 0 →
      computeRegularity intervals =
        .val (max 0 (min 1 (1 - npStd intervals / npMean intervals)))) ∧
    (∀ intervals : List ℝ, 2 ≤ intervals.length →
      (computeRegularity intervals).inUnitInterval) ∧
    computeRegularity [(2:ℝ), 2, 2] = .val 1 := by
  refine ⟨?_, ?_, ?_, ?_⟩
  · intro intervals h
    unfold computeRegularity
    rw [if_neg (by omega : ¬ 1 < intervals.length)]
  · intro intervals h hm
    unfold computeRegularity
    rw [if_pos (by omega : 1 < intervals.length)]
    rw [pyDiv, if_neg hm]
    simp only [pyOneSub]
    rw [pyMin_val, pyMax_val]
  · intro intervals _
    exact computeRegularity_inUnit intervals
  · have hmean : npMean [(2:ℝ), 2, 2] = 2 := by
      unfold npMean
      norm_num
    have hstd : npStd [(2:ℝ), 2, 2] = 0 := by
      unfold npStd
      rw [hmean]
      norm_num
    unfold computeRegularity
    rw [if_pos (by norm_num : 1 < ([(2:ℝ), 2, 2]).length)]
    rw [hstd, hmean, pyDiv, if_neg (by norm_num : (2:ℝ) ≠ 0)]
    simp only [pyOneSub]
    rw [pyMin_val, pyMax_val]
    have h1 : (1:ℝ) - 0 / 2 = 1 := by norm_num
    rw [h1, min_self, max_eq_right (by norm_num : (0:ℝ) ≤ 1)]

/-- Witness for C2 at concrete interval lists. -/
theorem regularity_formula_witness :
    computeRegularity ([] : List ℝ) = .val 0 ∧
    computeRegularity [(2:ℝ), 2, 2] = .val 1 :=
  ⟨regularity_formula.1 [] (by norm_num),
   regularity_formula.2.2.2⟩

/-- Output exclusivity helper: a document known to be one of the two
record shapes is exactly one of them. -/
theorem shape_exclusive (d : JsonDoc)
    (hs : (∃ r, d = .analysisDoc r) ∨ (∃ m, d = .errorDoc m)) :
    ((∃ r, d = .analysisDoc r) ∧ ¬ ∃ m, d = .errorDoc m) ∨
    ((∃ m, d = .errorDoc m) ∧ ¬ ∃ r, d = .analysisDoc r) := by
  rcases hs with ⟨r, hr⟩ | ⟨m, hm⟩
  · subst hr
    refine Or.inl ⟨⟨r, rfl⟩, ?_⟩
    rintro ⟨m, hm⟩
    exact JsonDoc.noConfusion hm
  · subst hm
    refine Or.inr ⟨⟨m, rfl⟩, ?_⟩
    rintro ⟨r, hr⟩
    exact JsonDoc.noConfusion hr

/-- C3: for every path and every engine behaviour (including the engine
raising, which is an `Except.error` absorbed by the `except` handler),
both analysis routines return exactly one of the success record
`{"audio_analysis": ...}` and the error record `{"error": ...}` — never
both, never neither, and never any other document shape. -/
theorem analyze_exactly_one_shape (avail : Bool) (eng : Engine) (p : String) :
    (((∃ r, analyze_audio eng p = .analysisDoc r) ∧
       ¬ ∃ m, analyze_audio eng p = .errorDoc m) ∨
     ((∃ m, analyze_audio eng p = .errorDoc m) ∧
       ¬ ∃ r, analyze_audio eng p = .analysisDoc r)) ∧
    (((∃ r, handler_analyze_audio avail eng p = .analysisDoc r) ∧
       ¬ ∃ m, handler_analyze_audio avail eng p = .errorDoc m) ∨
     ((∃ m, handler_analyze_audio avail eng p = .errorDoc m) ∧
       ¬ ∃ r, handler_analyze_audio avail eng p = .analysisDoc r)) :=
  ⟨shape_exclusive _ (analyze_audio_shape eng p),
   shape_exclusive _ (handler_analyze_audio_shape avail eng p)⟩

/-- C10: when the engine returns two or more intervals that are all zero,
the mean is `0`, the population stddev is `0`, IEEE division gives `nan`,
`1.0 - nan` stays `nan`, and `max(0.0, min(1.0, nan))` resolves to exactly
`1.0` — CPython `min`/`max` keep their first argument because every
comparison against `nan` is false — so `rhythm_regularity = 1.0`. -/
theorem allzero_intervals_regularity_one (intervals : List ℝ)
    (h2 : 2 ≤ intervals.length) (hz : ∀ x ∈ intervals, x = 0) :
    npMean intervals = 0 ∧
    npStd intervals = 0 ∧
    pyOneSub (pyDiv (npStd intervals) (npMean intervals)) = .nan ∧
    pyMax (.val 0) (pyMin (.val 1) .nan) = .val 1 ∧
    computeRegularity intervals = .val 1 := by
  have hsum : intervals.sum = 0 := List.sum_eq_zero hz
  have hmean : npMean intervals = 0 := by
    unfold npMean
    rw [hsum]
    exact zero_div _
  have hstd : npStd intervals = 0 := by
    unfold npStd
    have hsq : (intervals.map (fun x => (x - npMean intervals) ^ 2)).sum = 0 := by
      apply List.sum_eq_zero
      intro y hy
      obtain ⟨x, hx, rfl⟩ := List.mem_map.mp hy
      rw [hz x hx, hmean]
      norm_num
    rw [hsq, zero_div, Real.sqrt_zero]
  have hdiv : pyDiv (npStd intervals) (npMean intervals) = .nan := by
    rw [hstd, hmean, pyDiv, if_pos rfl, if_pos rfl]
  refine ⟨hmean, hstd, ?_, ?_, ?_⟩
  · rw [hdiv]
    rfl
  · rw [pyMin_one_nan, pyMax_zero_one]
  · unfold computeRegularity
    rw [if_pos (by omega : 1 < intervals.length), hdiv]
    simp only [pyOneSub]
    rw [pyMin_one_nan, pyMax_zero_one]

/-- Witness for C10 at `intervals = [0.0, 0.0]`. -/
theorem allzero_intervals_regularity_one_witness :
    npMean [(0:ℝ), 0] = 0 ∧
    npStd [(0:ℝ), 0] = 0 ∧
    pyOneSub (pyDiv (npStd [(0:ℝ), 0]) (npMean [(0:ℝ), 0])) = .nan ∧
    pyMax (.val 0) (pyMin (.val 1) .nan) = .val 1 ∧
    computeRegularity [(0:ℝ), 0] = .val 1 :=
  allzero_intervals_regularity_one [0, 0] (by norm_num)
    (by
      intro x hx
      rcases List.mem_cons.mp hx with h | h
      · exact h
      · rcases List.mem_cons.mp h with h2 | h2
        · exact h2
        · exact absurd h2 (List.not_mem_nil x))

/-- C4: in every successful result `beats_detected = len(beat_timestamps_sec)`
unconditionally; and under the engine guarantee of one interval per
consecutive beat pair (`len(intervals) = len(beats) - 1`),
`beats_detected = len(intervals) + 1` whenever at least one beat was
detected, and the interval list is empty whenever `beats_detected ≤ 1`. -/
theorem beats_detected_counts (eng : Engine) (p : String) (r : AnalysisResult)
    (h : analyze_audio eng p = .analysisDoc r)
    (hE : ∀ audio out, eng.extract audio = .ok out →
      out.beats_intervals.length = out.beats.length - 1) :
    r.beats_detected = r.beat_timestamps_sec.length ∧
    (1 ≤ r.beats_detected → r.beats_detected = r.bpm_intervals.length + 1) ∧
    (r.beats_detected ≤ 1 → r.bpm_intervals = []) := by
  obtain ⟨audio, out, _, ho, hr⟩ := analyze_audio_success_inv eng p r h
  have hlen := hE audio out ho
  subst hr
  refine ⟨rfl, ?_, ?_⟩
  · intro h1
    simp only [buildResult] at h1 ⊢
    omega
  · intro h1
    simp only [buildResult] at h1 ⊢
    have hz : out.beats_intervals.length = 0 := by omega
    exact List.length_eq_zero.mp hz

/-- Witness for C4 at a concrete engine run with two beats and one
interval. -/
theorem beats_detected_counts_witness :
    sampleResult.beats_detected = sampleResult.beat_timestamps_sec.length ∧
    (1 ≤ sampleResult.beats_detected →
      sampleResult.beats_detected = sampleResult.bpm_intervals.length + 1) ∧
    (sampleResult.beats_detected ≤ 1 → sampleResult.bpm_intervals = []) :=
  beats_detected_counts sampleEngine "a.wav" sampleResult rfl
    (by
      intro audio out ho
      injection ho with h
      subst h
      rfl)

/-- C8 counterexample: a successful `AnalysisResult` whose serialized
dict has no key `"beat_intervals"` — the intervals are stored under the
key `"bpm_intervals"` instead (`essentia_analyzer.py` line 58). -/
theorem no_beat_intervals_key :
    analyze_audio sampleEngine "a.wav" = .analysisDoc sampleResult ∧
    "beat_intervals" ∉ (AnalysisResult.toDict sampleResult).map Prod.fst ∧
    (AnalysisResult.toDict sampleResult).map Prod.fst =
      ["tempo_bpm", "confidence", "beat_timestamps_sec", "bpm_intervals",
       "beats_detected", "rhythm_regularity"] := by
  refine ⟨rfl, ?_, rfl⟩
  simp [AnalysisResult.toDict]

/-- C8 (amended): every successful result carries its interval sequence
under the dict key `"bpm_intervals"`; under the engine guarantee of one
positive interval per consecutive beat pair, that sequence is positive
and has length `len(beat_timestamps_sec) - 1`. -/
theorem bpm_intervals_field (eng : Engine) (p : String) (r : AnalysisResult)
    (h : analyze_audio eng p = .analysisDoc r)
    (hE : ∀ audio out, eng.extract audio = .ok out →
      out.beats_intervals.length = out.beats.length - 1 ∧
      ∀ x ∈ out.beats_intervals, 0 < x) :
    ("bpm_intervals", JVal.jintlist r.bpm_intervals) ∈ r.toDict ∧
    "beat_intervals" ∉ r.toDict.map Prod.fst ∧
    r.bpm_intervals.length = r.beat_timestamps_sec.length - 1 ∧
    ∀ x ∈ r.bpm_intervals, 0 < x := by
  obtain ⟨audio, out, _, ho, hr⟩ := analyze_audio_success_inv eng p r h
  obtain ⟨hlen, hpos⟩ := hE audio out ho
  subst hr
  refine ⟨?_, ?_, ?_, ?_⟩
  · simp [AnalysisResult.toDict]
  · simp [AnalysisResult.toDict]
  · simp only [buildResult]
    exact hlen
  · simp only [buildResult]
    exact hpos

/-- Witness for the amended C8 at a concrete engine run. -/
theorem bpm_intervals_field_witness :
    ("bpm_intervals", JVal.jintlist sampleResult.bpm_intervals) ∈
      sampleResult.toDict ∧
    "beat_intervals" ∉ sampleResult.toDict.map Prod.fst ∧
    sampleResult.bpm_intervals.length =
      sampleResult.beat_timestamps_sec.length - 1 ∧
    ∀ x ∈ sampleResult.bpm_intervals, 0 < x :=
  bpm_intervals_field sampleEngine "a.wav" sampleResult rfl
    (by
      intro audio out ho
      injection ho with h
      subst h
      refine ⟨rfl, ?_⟩
      intro x hx
      rcases List.mem_cons.mp hx with h2 | h2
      · rw [h2]
        norm_num
      · exact absurd h2 (List.not_mem_nil x))

/-- C5: when the path does not resolve to an existing file (engine
available), both routines return `{"error": "Аудио файл не найден: <path>"}`;
through a valid `GET /analyze?file=` or `POST /analyze` request this is
sent with HTTP status 200, and the CLI prints it and exits with status 0. -/
theorem file_not_found_behaviour (eng : Engine) (p : String)
    (hnf : eng.fileExists p = false) (hne : p ≠ "") (hnt : p ≠ "--test") :
    analyze_audio eng p = .errorDoc ("Аудио файл не найден: " ++ p) ∧
    handler_analyze_audio true eng p = .errorDoc ("Аудио файл не найден: " ++ p) ∧
    do_GET true eng "/analyze" (some p) =
      send_json_response (.errorDoc ("Аудио файл не найден: " ++ p)) 200 ∧
    (do_GET true eng "/analyze" (some p)).status_code = 200 ∧
    do_POST true eng "/analyze" (.parsed (some p)) =
      send_json_response (.errorDoc ("Аудио файл не найден: " ++ p)) 200 ∧
    (do_POST true eng "/analyze" (.parsed (some p))).status_code = 200 ∧
    (cli_process true eng ["essentia_analyzer.py", p]).printed =
      .errorDoc ("Аудио файл не найден: " ++ p) ∧
    (cli_process true eng ["essentia_analyzer.py", p]).exitCode = 0 := by
  have hA : analyze_audio eng p = .errorDoc ("Аудио файл не найден: " ++ p) := by
    unfold analyze_audio analyze_audio_attempt
    rw [if_pos hnf]
  have hH : handler_analyze_audio true eng p =
      .errorDoc ("Аудио файл не найден: " ++ p) := by
    unfold handler_analyze_audio
    rw [if_neg (by simp), hA]
  have hG : do_GET true eng "/analyze" (some p) =
      send_json_response (.errorDoc ("Аудио файл не найден: " ++ p)) 200 := by
    unfold do_GET
    rw [if_neg (by simp), if_pos rfl]
    dsimp only
    rw [if_neg hne, hH]
  have hP : do_POST true eng "/analyze" (.parsed (some p)) =
      send_json_response (.errorDoc ("Аудио файл не найден: " ++ p)) 200 := by
    unfold do_POST
    rw [if_pos rfl]
    dsimp only
    rw [if_neg hne, hH]
  have hC : cli_process true eng ["essentia_analyzer.py", p] =
      { printed := .errorDoc ("Аудио файл не найден: " ++ p), exitCode := 0 } := by
    unfold cli_process main
    rw [if_neg (by simp)]
    dsimp only
    rw [if_neg hnt, hA]
  exact ⟨hA, hH, hG, by rw [hG]; rfl, hP, by rw [hP]; rfl, by rw [hC], by rw [hC]⟩

/-- Witness for C5: an engine whose filesystem is empty, queried for
`missing.wav`. -/
theorem file_not_found_behaviour_witness :
    analyze_audio absentEngine "missing.wav" =
      .errorDoc ("Аудио файл не найден: " ++ "missing.wav") ∧
    handler_analyze_audio true absentEngine "missing.wav" =
      .errorDoc ("Аудио файл не найден: " ++ "missing.wav") ∧
    do_GET true absentEngine "/analyze" (some "missing.wav") =
      send_json_response
        (.errorDoc ("Аудио файл не найден: " ++ "missing.wav")) 200 ∧
    (do_GET true absentEngine "/analyze" (some "missing.wav")).status_code = 200 ∧
    do_POST true absentEngine "/analyze" (.parsed (some "missing.wav")) =
      send_json_response
        (.errorDoc ("Аудио файл не найден: " ++ "missing.wav")) 200 ∧
    (do_POST true absentEngine "/analyze"
      (.parsed (some "missing.wav"))).status_code = 200 ∧
    (cli_process true absentEngine ["essentia_analyzer.py", "missing.wav"]).printed =
      .errorDoc ("Аудио файл не найден: " ++ "missing.wav") ∧
    (cli_process true absentEngine
      ["essentia_analyzer.py", "missing.wav"]).exitCode = 0 :=
  file_not_found_behaviour absentEngine "missing.wav" rfl (by decide) (by decide)

/-- The exit status of `main`: 1 on missing argument, 0 otherwise. -/
theorem main_exitCode (eng : Engine) (argv : List String) :
    (main eng argv).exitCode = if argv.length < 2 then 1 else 0 := by
  rcases argv with _ | ⟨a, _ | ⟨b, t⟩⟩
  · rfl
  · rfl
  · rw [if_neg (by simp only [List.length_cons]; omega)]
    show (if b = "--test" then ({ printed := test_essentia eng, exitCode := 0 } : CliResult)
      else { printed := analyze_audio eng b, exitCode := 0 }).exitCode = 0
    by_cases hb : b = "--test"
    · rw [if_pos hb]
    · rw [if_neg hb]

/-- The usage-error document printed by `main` when arguments are
missing. -/
theorem main_usage_printed (eng : Engine) (argv : List String)
    (h : argv.length < 2) :
    (main eng argv).printed = .errorDoc
      "Использование: python3 essentia_analyzer.py <audio_file_path> или --test" := by
  rcases argv with _ | ⟨a, _ | ⟨b, t⟩⟩
  · rfl
  · rfl
  · simp only [List.length_cons] at h
    omega

/-- C6 counterexample: an invocation with one argument supplied but the
`essentia` import failing exits with status 1, not 0 — the exit code is
not determined by the argument count alone. -/
theorem import_failure_exit_code :
    2 ≤ (["essentia_analyzer.py", "a.wav"] : List String).length ∧
    (cli_process false sampleEngine ["essentia_analyzer.py", "a.wav"]).exitCode = 1 ∧
    (cli_process false sampleEngine ["essentia_analyzer.py", "a.wav"]).exitCode ≠ 0 := by
  refine ⟨by norm_num, rfl, by norm_num [cli_process]⟩

/-- C6 (amended): when the `essentia` import succeeds, the CLI exits with
status 1 exactly when fewer than two `sys.argv` entries (i.e. zero user
arguments) are supplied, printing the usage-error JSON, and exits 0 in
every other invocation regardless of the analysis outcome; when the
module-level `essentia` import fails the process exits 1 regardless of
the arguments. -/
theorem cli_exit_code (eng : Engine) (argv : List String) :
    ((cli_process true eng argv).exitCode = 1 ↔ argv.length < 2) ∧
    ((cli_process true eng argv).exitCode = 0 ↔ 2 ≤ argv.length) ∧
    (argv.length < 2 → (cli_process true eng argv).printed = .errorDoc
      "Использование: python3 essentia_analyzer.py <audio_file_path> или --test") ∧
    (cli_process false eng argv).exitCode = 1 := by
  have hc : cli_process true eng argv = main eng argv := by
    unfold cli_process
    rw [if_neg (by simp)]
  rw [hc]
  have he := main_exitCode eng argv
  refine ⟨?_, ?_, main_usage_printed eng argv, rfl⟩
  · rw [he]
    by_cases h : argv.length < 2
    · rw [if_pos h]
      omega
    · rw [if_neg h]
      omega
  · rw [he]
    by_cases h : argv.length < 2
    · rw [if_pos h]
      omega
    · rw [if_neg h]
      omega

/-- Witness for the amended C6 at concrete argument lists. -/
theorem cli_exit_code_witness :
    (cli_process true sampleEngine ["essentia_analyzer.py"]).printed = .errorDoc
      "Использование: python3 essentia_analyzer.py <audio_file_path> или --test" :=
  (cli_exit_code sampleEngine ["essentia_analyzer.py"]).2.2.1 (by norm_num)

/-- C7: on `POST /analyze`, a malformed JSON body yields HTTP 400 with
`"Неверный JSON формат"`, a well-formed body without a truthy `file_path`
field yields HTTP 400 with the field-required message, and in both cases
the response is a fixed value not involving the analysis routine (so
`analyze` is never invoked); the analysis routine is invoked, on the
field's value, exactly in the remaining case. -/
theorem post_analyze_validation (avail : Bool) (eng : Engine) :
    do_POST avail eng "/analyze" .malformed =
      send_error_response 400 "Неверный JSON формат" ∧
    (do_POST avail eng "/analyze" .malformed).status_code = 400 ∧
    do_POST avail eng "/analyze" (.parsed none) =
      send_error_response 400 "Поле \x27file_path\x27 обязательно" ∧
    (do_POST avail eng "/analyze" (.parsed none)).status_code = 400 ∧
    (∀ fp : String, fp ≠ "" →
      do_POST avail eng "/analyze" (.parsed (some fp)) =
        send_json_response (handler_analyze_audio avail eng fp) 200) := by
  have h1 : do_POST avail eng "/analyze" .malformed =
      send_error_response 400 "Неверный JSON формат" := by
    unfold do_POST
    rw [if_pos rfl]
  have h2 : do_POST avail eng "/analyze" (.parsed none) =
      send_error_response 400 "Поле \x27file_path\x27 обязательно" := by
    unfold do_POST
    rw [if_pos rfl]
  refine ⟨h1, by rw [h1]; rfl, h2, by rw [h2]; rfl, ?_⟩
  intro fp hfp
  unfold do_POST
  rw [if_pos rfl]
  dsimp only
  rw [if_neg hfp]

/-- Witness for C7 at a concrete request. -/
theorem post_analyze_validation_witness :
    do_POST true sampleEngine "/analyze" (.parsed (some "b.wav")) =
      send_json_response (handler_analyze_audio true sampleEngine "b.wav") 200 :=
  (post_analyze_validation true sampleEngine).2.2.2.2 "b.wav" (by decide)

/-- The pair of headers `send_json_response` attaches to every response
(the HTTP header field name `Content-type` is case-insensitive per
RFC 9110, so this is the `Content-Type: application/json` of the spec). -/
def hasJsonHeaders (resp : HttpResponse) : Prop :=
  ("Content-type", "application/json") ∈ resp.headers ∧
  ("Access-Control-Allow-Origin", "*") ∈ resp.headers

theorem send_json_response_headers (d : JsonDoc) (c : ℕ) :
    hasJsonHeaders (send_json_response d c) := by
  unfold hasJsonHeaders send_json_response
  refine ⟨List.mem_cons_self _ _, List.mem_cons_of_mem _ (List.mem_cons_self _ _)⟩

theorem send_error_response_headers (c : ℕ) (m : String) :
    hasJsonHeaders (send_error_response c m) :=
  send_json_response_headers _ _

theorem send_health_check_headers (avail : Bool) (eng : Engine) :
    hasJsonHeaders (send_health_check avail eng) := by
  unfold send_health_check
  split
  · exact send_error_response_headers _ _
  · split
    · exact send_json_response_headers _ _
    · exact send_error_response_headers _ _

theorem do_GET_headers (avail : Bool) (eng : Engine) (path : String)
    (qf : Option String) : hasJsonHeaders (do_GET avail eng path qf) := by
  unfold do_GET
  split
  · exact send_health_check_headers _ _
  · split
    · split
      · exact send_error_response_headers _ _
      · split
        · exact send_error_response_headers _ _
        · exact send_json_response_headers _ _
    · exact send_error_response_headers _ _

theorem do_POST_headers (avail : Bool) (eng : Engine) (path : String)
    (pb : PostBody) : hasJsonHeaders (do_POST avail eng path pb) := by
  unfold do_POST
  split
  · split
    · exact send_error_response_headers _ _
    · exact send_error_response_headers _ _
    · split
      · exact send_error_response_headers _ _
      · exact send_json_response_headers _ _
  · exact send_error_response_headers _ _

/-- C9: every response the service emits — through `do_GET` (health,
analyze, unknown route), `do_POST`, the health check, any error response
(including the 500 internal-error responses, covered by the arbitrary
status code), and `send_json_response` itself — carries a JSON body (by
construction of `HttpResponse`) with the `Content-type: application/json`
and `Access-Control-Allow-Origin: *` headers. -/
theorem every_response_json_cors (avail : Bool) (eng : Engine)
    (gpath ppath : String) (qf : Option String) (pb : PostBody)
    (code : ℕ) (msg : String) (d : JsonDoc) (c : ℕ) :
    hasJsonHeaders (do_GET avail eng gpath qf) ∧
    hasJsonHeaders (do_POST avail eng ppath pb) ∧
    hasJsonHeaders (send_health_check avail eng) ∧
    hasJsonHeaders (send_error_response code msg) ∧
    hasJsonHeaders (send_json_response d c) :=
  ⟨do_GET_headers avail eng gpath qf,
   do_POST_headers avail eng ppath pb,
   send_health_check_headers avail eng,
   send_error_response_headers code msg,
   send_json_response_headers d c⟩
